import Mathlib

/-!
Verification development for the Citizen-Gemini repository
(`olabot.py`, `olascrape.py`).

Python strings are modeled as Lean `String` (a structure holding a
`List Char`), Python dictionaries as insertion-ordered association lists
(`Dict α`), exceptions as `Option`/`Except`, and the external Gemini
text-completion provider as a universally quantified oracle function.
Python library primitives used by the code (`str.strip`, `str.split`,
`str.replace`, `str.upper`, the regex substitutions actually occurring in
the source) are given executable Lean models below.
-/

/-- Ordered association list, models a Python `dict` (insertion order). -/
abbrev Dict (α : Type) := List (String × α)

/-- Document value: field name to field value, models the per-document JSON
object (fields such as type, id_number, contents). -/
abbrev Doc := Dict String

/-- Characters removed by Python `str.strip()` with no arguments. -/
def isPySpace (c : Char) : Bool :=
  c == ' ' || c == '\t' || c == '\n' || c == '\r' || c == '\x0b' || c == '\x0c'

/-- Remove trailing characters satisfying `isPySpace` (right strip on lists). -/
def rstripList (l : List Char) : List Char :=
  (l.reverse.dropWhile isPySpace).reverse

/-- Remove leading and trailing whitespace (model of Python `str.strip()`). -/
def stripList (l : List Char) : List Char :=
  rstripList (l.dropWhile isPySpace)

/-- Model of Python `str.strip()`. -/
def pyStrip (s : String) : String := ⟨stripList s.data⟩

/-- Model of Python `str.startswith`. -/
def pyStartswith (s pre : String) : Bool := pre.data.isPrefixOf s.data

/-- Model of Python `str.endswith`. -/
def pyEndswith (s suf : String) : Bool := suf.data.isSuffixOf s.data

/-- Model of the Python slice `s[n:]` (on characters). -/
def strDrop (s : String) (n : Nat) : String := ⟨s.data.drop n⟩

/-- Model of the Python slice `s[:-n]` (on characters). -/
def strDropRight (s : String) (n : Nat) : String :=
  ⟨s.data.take (s.data.length - n)⟩

/-- Split a character list on the newline character, Python
`str.split("\n")` semantics (no collapsing of empty fields). -/
def splitNl : List Char → List (List Char)
  | [] => [[]]
  | '\n' :: r => [] :: splitNl r
  | c :: r =>
    match splitNl r with
    | [] => [[c]]
    | h :: t => (c :: h) :: t

/-- Model of Python `s.split("\n")`. -/
def pySplitNl (s : String) : List String := (splitNl s.data).map String.mk

/-- Model of Python `s.replace(x, "")` for a single character `x`. -/
def removeChar (x : Char) (s : String) : String := ⟨s.data.filter (· != x)⟩

/-- Model of Python `s.replace(x, y)` for single characters. -/
def charReplace (x y : Char) (s : String) : String :=
  ⟨s.data.map (fun c => if c == x then y else c)⟩

/-- Model of Python `s.replace("   ", " ")`: one left-to-right
non-overlapping pass replacing three spaces by one. -/
def replace3SpacesL : List Char → List Char
  | ' ' :: ' ' :: ' ' :: r => ' ' :: replace3SpacesL r
  | c :: r => c :: replace3SpacesL r
  | [] => []

/-- String wrapper for `replace3SpacesL`. -/
def replace3Spaces (s : String) : String := ⟨replace3SpacesL s.data⟩

/-- Model of Python `s.replace("\r\n", " ")`. -/
def replaceCrNlL : List Char → List Char
  | '\r' :: '\n' :: r => ' ' :: replaceCrNlL r
  | c :: r => c :: replaceCrNlL r
  | [] => []

/-- String wrapper for `replaceCrNlL`. -/
def replaceCrNl (s : String) : String := ⟨replaceCrNlL s.data⟩

/-- Model of Python `s.upper()` (ASCII, as used on ASCII field names). -/
def pyUpper (s : String) : String := ⟨s.data.map Char.toUpper⟩

/-- Model of Python `s.lower()` (ASCII). -/
def pyLower (s : String) : String := ⟨s.data.map Char.toLower⟩

/-- Infix test on character lists. -/
def isInfixL (needle : List Char) : List Char → Bool
  | [] => needle.isEmpty
  | c :: t => needle.isPrefixOf (c :: t) || isInfixL needle t

/-- Model of Python `needle in hay` on strings (substring test). -/
def containsSub (needle hay : String) : Bool :=
  isInfixL needle.data hay.data

/-- Model of Python `sep.join(items)`. -/
def joinSep (sep : String) : List String → String
  | [] => ""
  | x :: xs => xs.foldl (fun a b => a ++ sep ++ b) x

/-- Hexadecimal digit test, the character class `[0-9A-Fa-f]`. -/
def isHexDigitChar (c : Char) : Bool :=
  c.isDigit || ('a' ≤ c && c ≤ 'f') || ('A' ≤ c && c ≤ 'F')

/-- Model of `re.sub(r"\\x[0-9A-Fa-f]{2}", "", text)`: removes literal
backslash-x-hex-hex sequences, scanning left to right. -/
def stripHexEscapesL : List Char → List Char
  | '\\' :: 'x' :: a :: b :: rest =>
    if isHexDigitChar a && isHexDigitChar b then stripHexEscapesL rest
    else '\\' :: stripHexEscapesL ('x' :: a :: b :: rest)
  | c :: rest => c :: stripHexEscapesL rest
  | [] => []

/-- String wrapper for `stripHexEscapesL`. -/
def stripHexEscapes (s : String) : String := ⟨stripHexEscapesL s.data⟩

/-- Model of `re.sub(r"\n\n", "\n", s)`: one non-overlapping pass. -/
def sub2nlL : List Char → List Char
  | '\n' :: '\n' :: r => '\n' :: sub2nlL r
  | c :: r => c :: sub2nlL r
  | [] => []

/-- Model of `re.sub(r"\n{4,}", "\n\n\n", s)`: a greedy maximal run of at
least four newlines becomes exactly three.  The boolean is a skipping mode
consuming the remainder of a matched run. -/
def sub4nlAux : Bool → List Char → List Char
  | _, [] => []
  | true, '\n' :: r => sub4nlAux true r
  | true, c :: r => c :: sub4nlAux false r
  | false, '\n' :: '\n' :: '\n' :: '\n' :: r => '\n' :: '\n' :: '\n' :: sub4nlAux true r
  | false, c :: r => c :: sub4nlAux false r

/-- Model of `re.sub(r":\n", ":", s)`. -/
def subColonNlL : List Char → List Char
  | ':' :: '\n' :: r => ':' :: subColonNlL r
  | c :: r => c :: subColonNlL r
  | [] => []

/-!
## Embedding of `olascrape.py`
-/

/-- Model of `fetch_hansard_content` (olascrape.py lines 98-129).  The
input abstracts the successive HTTP-200 pages of the while loop: for each
page, `some t` means the page has a `div id="transcript"` whose extracted
text is `t`, and `none` means the element is missing (the code prints a
warning and moves on).  The loop stops at the first non-200 response,
which is the end of the list.  The four regex substitutions of lines
124-127 are then applied. -/
def fetch_hansard_content (pages : List (Option String)) : String :=
  let combined := pages.foldl
    (fun acc p => match p with | some t => acc ++ t | none => acc) ""
  ⟨subColonNlL (sub4nlAux false (sub2nlL (stripHexEscapesL combined.data)))⟩

/-- Abstraction of the parsed HTML of one bill page, holding the extracted
text of each element `fetch_bill_contents` looks for (`none` = the element
is absent, so BeautifulSoup `find` returns `None` and the subsequent
`get_text` raises `AttributeError`). -/
structure BillPage where
  statusElem : Option String
  memberDiv : Option String
  wordSection : Option String
  paragraphs : List String
deriving DecidableEq

/-- Python exceptions relevant to the scraper model. -/
inductive PyError where
  | attributeError
  | indexError
  | valueError
deriving DecidableEq

/-- Return value of `fetch_bill_contents`: either the
`(sponsor, status, text)` tuple, or the literal Python string `"None"`
returned by the `except AttributeError` handler (line 80). -/
inductive BillFetchResult where
  | tuple3 (sponsor status text : String)
  | strNone
deriving DecidableEq

/-- Model of `fetch_bill_contents` (olascrape.py lines 37-80).  The status
extraction (lines 51-57) happens before the `try`, so a missing status
element raises an uncaught `AttributeError`.  Inside the `try`, a missing
member div or WordSection1 div raises `AttributeError`, which is caught:
the handler prints the error and returns the string `"None"`.  An
`IndexError` from `findAll("p")[1]` is not an `AttributeError` and
propagates. -/
def fetch_bill_contents (page : BillPage) : Except PyError BillFetchResult :=
  match page.statusElem with
  | none => .error .attributeError
  | some rawStatus =>
    let status := replace3Spaces (removeChar '\t' (removeChar '\n' rawStatus))
    let inner : Except PyError (String × String) :=
      if containsSub "out of order" (pyLower status) then
        match page.paragraphs.get? 1 with
        | none => .error .indexError
        | some p => .ok ("Withdrawn", "\n\n" ++ replaceCrNl p)
      else
        match page.memberDiv with
        | none => .error .attributeError
        | some m =>
          match page.wordSection with
          | none => .error .attributeError
          | some w => .ok (removeChar '\n' m, replaceCrNl w)
    match inner with
    | .ok (sponsor, text) =>
      let text := stripHexEscapes (charReplace '\xa0' ' ' text)
      .ok (.tuple3 sponsor status text)
    | .error .attributeError => .ok .strNone
    | .error e => .error e

/-- Model of the tuple unpacking `sponsor, status, contents =
fetch_bill_contents(b)` in `scrape` (olascrape.py line 257).  Unpacking the
four-character string `"None"` into three targets raises `ValueError`. -/
def unpackBillResult : BillFetchResult → Except PyError (String × String × String)
  | .tuple3 a b c => .ok (a, b, c)
  | .strNone => .error .valueError

/-- Model of the per-bill body of the loop in `scrape` (olascrape.py lines
256-267): fetch, unpack, and build the document entry. -/
def scrapeBillEntry (b : String × String) (page : BillPage) :
    Except PyError (String × Doc) := do
  let r ← fetch_bill_contents page
  let (sponsor, status, contents) ← unpackBillResult r
  .ok ("bill " ++ b.1,
    [("type", "bill"), ("id_number", b.1), ("title", b.2),
     ("sponsor", sponsor), ("status", status), ("contents", contents)])

/-- Model of `scrape` (olascrape.py lines 238-281).  Inputs abstract the
network: the list of bills (with their fetched pages) and the list of
hansard dates (with their fetched page sequences).  An exception anywhere
aborts the whole run, as in Python. -/
def scrape (bills : List ((String × String) × BillPage))
    (hansards : List (String × List (Option String))) :
    Except PyError (Dict Doc) := do
  let billData ← bills.mapM (fun bp => scrapeBillEntry bp.1 bp.2)
  let hansData := hansards.map (fun dp =>
    ("transcript " ++ dp.1,
      [("type", "transcript"), ("id_number", dp.1),
       ("contents", fetch_hansard_content dp.2)]))
  .ok (billData ++ hansData)

/-!
### Claim C4
-/

/-- Bill page whose current-status element is present but whose
`views-field-field-member` div is missing (status does not contain
"out of order"). -/
def pageMissingMember : BillPage :=
  { statusElem := some "First Reading"
    memberDiv := none
    wordSection := some "An Act respecting something."
    paragraphs := ["p0", "p1"] }

/-- Claim C4: the claim states that a missing HTML element is logged, the
item skipped, and the overall scrape continues, for both transcript pages
(missing transcript div) and bill pages (missing element raising
`AttributeError` in `fetch_bill_contents`).  The transcript half holds:
`fetch_hansard_content` skips a page with no transcript div and completes
normally.  The bill half fails: `fetch_bill_contents` catches the
`AttributeError` and returns the Python string `"None"` (line 80), and
`scrape` unpacks that four-character string into three variables (line
257), which raises `ValueError` and aborts the entire run; this theorem
evaluates the code at such a failing input and shows the run errors even
though a second, well-formed bill is still pending. -/
theorem C4_scrape_aborts_on_missing_bill_element :
    fetch_hansard_content [some "A:\n", none, some "B"] = "A:B"
    ∧ fetch_bill_contents pageMissingMember = .ok .strNone
    ∧ scrape
        [(("124", "An Act"), pageMissingMember),
         (("125", "Another Act"),
          { statusElem := some "First Reading"
            memberDiv := some "Jane Doe"
            wordSection := some "Full text."
            paragraphs := [] })]
        [("2024-06-01", [some "Contents"])]
      = .error .valueError := by
  refine ⟨rfl, rfl, rfl⟩

/-!
## Embedding of `olabot.py`
-/

/-- Model of `documents_to_string` (olabot.py lines 49-62): renders one
document block. -/
def docBlock (docId : String) (doc : Doc) : String :=
  "*********************DOCUMENT " ++ docId ++ " START*********************\n"
  ++ "ID: " ++ docId ++ "\n"
  ++ String.join (doc.map (fun kv => pyUpper kv.1 ++ ": " ++ kv.2 ++ "\n"))
  ++ "*********************DOCUMENT " ++ docId ++ " END*********************\n\n\n\n"

/-- Model of `documents_to_string` (olabot.py lines 49-62). -/
def documents_to_string (documents : Dict Doc) : String :=
  String.join (documents.map (fun kv => docBlock kv.1 kv.2))

/-- Model of the markdown-fence cleaning in `parse_llm_json`
(olabot.py lines 78-86). -/
def cleanLLMResponse (response : String) : String :=
  let cleaned := pyStrip response
  if pyStartswith cleaned "```" then
    let cleaned2 := if pyStartswith cleaned "```json" then strDrop cleaned 7
      else strDrop cleaned 3
    let cleaned3 := if pyEndswith cleaned2 "```" then strDropRight cleaned2 3
      else cleaned2
    pyStrip cleaned3
  else cleaned

/-- Model of `parse_llm_json` (olabot.py lines 65-87).  The library call
`json.loads` is external to the repository, so it is passed in as a
parameter `loads`; `none` models a raised `json.JSONDecodeError`. -/
def parse_llm_json {α : Type} (loads : String → Option α) (response : String) :
    Option α :=
  loads (cleanLLMResponse response)

/-- One entry of a Gemini chat history, modeled after the dictionaries
built in `_initialize_chat_session` (role and parts text). -/
structure Turn where
  role : String
  parts : String
deriving DecidableEq

/-- State of an `OLABot` instance: the attributes listed in the class
docstring that the claims concern.  The model and cache handles are
external Gemini resources and carry no local state beyond the cached
`current_context` string, which is kept here. -/
structure BotState where
  MAX_DOCUMENT_CONTEXT : Nat
  documents : Dict Doc
  summaries : Dict Doc
  available_dates : List String
  available_bills : List String
  current_document_ids : List String
  current_context : String
  chat_history : List Turn
deriving DecidableEq

/-- Keys of a dictionary. -/
def dictKeys {α : Type} (d : Dict α) : List String := d.map Prod.fst

/-- First-occurrence deduplication (accumulator form), models the key
semantics of the Python dict comprehension `{k: documents[k] for k in ids}`:
a repeated key keeps its first position. -/
def dedupFirstAux (seen : List String) : List String → List String
  | [] => []
  | x :: xs =>
    if x ∈ seen then dedupFirstAux seen xs
    else x :: dedupFirstAux (x :: seen) xs

/-- First-occurrence deduplication. -/
def dedupFirst (l : List String) : List String := dedupFirstAux [] l

/-- Effectful map over `Option`, stopping at the first failure: the model
of a Python loop or comprehension whose body may raise. -/
def optMapList {α β : Type} (f : α → Option β) : List α → Option (List β)
  | [] => some []
  | x :: xs =>
    match f x with
    | none => none
    | some y => (optMapList f xs).map (fun ys => y :: ys)

/-- Model of the dict comprehension `{k: self.documents[k] for k in ids}`
(olabot.py lines 177 and 364): `none` models the `KeyError` raised when
some id is not a key of the store. -/
def pyDictComp (docs : Dict Doc) (ids : List String) : Option (Dict Doc) :=
  optMapList (fun k => (docs.lookup k).map (fun v => (k, v))) (dedupFirst ids)

/-- Text of the system prompt in `_initialize_chat_session`
(olabot.py lines 306-340). -/
def systemPromptText : String :=
  "\n        You are a helpful assistant making the Ontario Legislative Assembly more accessible to average citizens.\n\n        IMPORTANT: You have persistent access to cached Ontario Legislative Assembly documents, including transcripts and bills.\n        These documents remain available to you throughout the conversation and you should use them fully.\n\n        HOW TO ANSWER QUESTIONS:\n\n        1. CONTENT AND STYLE\n        - Use plain, accessible language - avoid political jargon\n        - Break down complex legislative concepts\n        - Structure responses in short, clear paragraphs\n        - Include specific dates when referencing discussions\n        - Be factual and neutral in tone\n\n        2. USING CACHED DOCUMENTS\n        - Reference and quote directly from cached documents\n        - Cite specific dates and sessions when quoting\n        - Provide context for any technical terms or procedures\n        - Connect legislative discussions to real-world impacts\n\n        3. LEVEL OF DETAIL\n        - Start with a concise summary\n        - Add relevant details based on the question\x27s scope\n        - If asked for more detail, provide comprehensive information\n        - Include specific examples from the documents when helpful\n\n        4. CLARITY AND COMPLETENESS\n        - If something is unclear in the documents, say so\n        - If multiple documents are relevant, synthesize the information\n        - Explain legislative procedures in citizen-friendly terms\n\n        Remember: Your audience is the average citizen who wants to understand their government\x27s activities. Make complex\n        legislative information accessible while making full use of your cached documents.\n        "

/-- Fixed two-entry prefix installed by `_initialize_chat_session`
(olabot.py lines 342-345). -/
def initialHistoryPrefix : List Turn :=
  [{ role := "user", parts := systemPromptText },
   { role := "model", parts := "I understand my role and guidelines." }]

/-- Model of `_initialize_chat_session` (olabot.py lines 297-355): resets
the chat session to the fixed prefix followed by the given previous
history (extending by the empty list and skipping the extend coincide). -/
def initialize_chat_session (s : BotState) (previous_history : List Turn) :
    BotState :=
  { s with chat_history := initialHistoryPrefix ++ previous_history }

/-- Model of `_update_current_context` (olabot.py lines 360-387),
reproducing the Python statement order: `current_document_ids` is assigned
first (line 362); building `current_context` (lines 363-365) raises
`KeyError` if some clipped id is not a store key, in which case the
remaining statements do not run and the partially mutated state is
`.error`; otherwise the old cache is replaced and the chat session is
rebuilt from the fixed prefix plus `history[2:]` of the previous session. -/
def update_current_context (s : BotState) (document_ids : List String) :
    Except BotState BotState :=
  let newIds := document_ids.take s.MAX_DOCUMENT_CONTEXT
  let s1 := { s with current_document_ids := newIds }
  match pyDictComp s.documents newIds with
  | none => .error s1
  | some ctxPairs =>
    let s2 := { s1 with current_context := documents_to_string ctxPairs }
    let previous_history := s2.chat_history.drop 2
    .ok (initialize_chat_session s2 previous_history)

/-!
Prompt texts.  The f-string fragments below are the literal text of the
prompts in `_check_context_relevance` (olabot.py lines 408-558) and
`_select_relevant_documents` (olabot.py lines 576-605), split at the
interpolation points.
-/

def relevP1 : String :=
  "\n        QUESTION: \""
def relevP2 : String :=
  "\"\n\n        CONTEXT INFORMATION:\n        1. You have access to summaries of ALL documents in the format:\n        ***DOCUMENT \x7btype\x7d \x7bid\x7d START***\n        SUMMARY: [content summary]\n        ***DOCUMENT \x7btype\x7d \x7bid\x7d END***\n\n        2. Currently loaded COMPLETE documents: "
def relevP3 : String :=
  "\n        (These are the only documents available for detailed analysis)\n\n        3. CONVERSATION FLOW in history:\n        - Previous questions from the user\n        - The main assistant\x27s answers to those questions\n        - Most recent exchange used these loaded documents\n\n        EVALUATION STEPS:\n        1. READ the main assistant\x27s last answer carefully - what information was already provided?\n        2. Review the conversation flow:\n        a) What did the user previously ask?\n        b) What specific information did the main assistant provide?\n        c) Does the answer contain ANY information about the new question\x27s topic?\n        3. For the new question, check:\n        a) Does it ask for more details about something already mentioned?\n        b) Does it use words like \"this\" referring to previous content?\n        c) Is it asking to expand on a point already touched upon?\n        4. Important: If the previous answer contained ANY relevant information about the topic,\n        USE_CURRENT_CONTEXT to expand on that information before loading new context.\n\n        DECISION RULES:\n\n        USE_CURRENT_CONTEXT when ANY of these are true:\n        1. The main assistant\x27s last answer contains ANY information about the topic being asked about\n        2. The question asks for more details/examples/explanation of something mentioned in the last answer\n        3. The question uses words like \"this\", \"these\", \"those\" referring to content from the last answer\n        4. The question is about reactions/responses/criticism/support related to what was just discussed\n        5. The question explicitly asks about current context\n\n        LOAD_NEW_CONTEXT only when ALL of these are true:\n        1. The main assistant\x27s last answer contains NO information about the topic being asked about\n        2. The question asks about documents that aren\x27t currently loaded\n        3. The question requires searching across a broader set of documents\n        4. The question introduces a completely new topic unrelated to the last answer\n        5. The question can\x27t possibly be answered using information from current documents\n\n        EXAMPLES:\n\n        Example 1:\n        Previous Question: \"What is Bill 118 about?\"\n        Previous Answer: \"Bill 118 establishes June 1st as Injured Workers Day...\"\n        New Question: \"Can you explain more about the workplace provisions in this bill?\"\n        Current Documents: [\"bill 118\", \"transcript 2023-10-23\"]\n        Decision: USE_CURRENT_CONTEXT\n        Reasoning: Follows directly from previous Q&A about Bill 118\x27s contents\n\n        Example 2:\n        Previous Question: \"What does Bill 212 say about transportation?\"\n        Previous Answer: \"Bill 212 includes provisions about bicycle lanes that allow the province to override municipal decisions...\"\n        New Question: \"I\x27m concerned about the bicycle lane changes, can you provide more details?\"\n        Current Documents: [\"bill 212\", \"transcript 2024-11-21\"]\n        Decision: USE_CURRENT_CONTEXT\n        Reasoning: Directly references information provided in last answer about bicycle lanes\n\n        Example 3:\n        Previous Question: \"What did MPPs say about healthcare funding?\"\n        Previous Answer: \"During the May debates, MPPs discussed hospital funding...\"\n        New Question: \"What does Bill 124 say about nurses?\"\n        Current Documents: [\"transcript 2024-05-30\"]\n        Decision: LOAD_NEW_CONTEXT\n        Reasoning: Switches from transcript discussions to requesting specific bill content not currently loaded\n\n        Example 4:\n        Previous Question: \"What did the Premier say about healthcare?\"\n        Previous Answer: \"In the Question Period, Premier Ford highlighted investments including 12,500 licensed physicians and 100% match in residency positions...\"\n        New Question: \"Can you tell me more about the residency position expansion?\"\n        Current Documents: [\"transcript 2024-05-08\", \"transcript 2024-03-20\"]\n        Decision: USE_CURRENT_CONTEXT\n        Reasoning: Asks for elaboration on specific detail mentioned in previous answer\n\n        Example 5:\n        Previous Question: \"What were the key points in Bill 75?\"\n        Previous Answer: \"Bill 75 focuses on housing development regulations...\"\n        New Question: \"Are there any other bills about housing from this session?\"\n        Current Documents: [\"bill 75\", \"transcript 2024-03-15\"]\n        Decision: LOAD_NEW_CONTEXT\n        Reasoning: Requires broader search across multiple bills beyond current context\n\n        Example 6:\n        Previous Question: \"What bills are currently loaded?\"\n        Previous Answer: \"The currently loaded documents include Bill 124 and several transcripts...\"\n        New Question: \"What other bills mention healthcare?\"\n        Current Documents: [\"bill 124\", \"transcript 2024-05-30\"]\n        Decision: LOAD_NEW_CONTEXT\n        Reasoning: Despite being related to current topic, explicitly requests other bills\n\n        Example 7:\n        Previous Question: \"Tell me about the housing crisis discussion\"\n        Previous Answer: \"In these October sessions, MPPs debated housing affordability...\"\n        New Question: \"What else was said in these sessions?\"\n        Current Documents: [\"transcript 2023-10-23\", \"transcript 2023-10-24\"]\n        Decision: USE_CURRENT_CONTEXT\n        Reasoning: Explicitly refers to \"these sessions\" in currently loaded transcripts\n\n        Example 8:\n        Previous Question: \"What happened in the November 15th session?\"\n        Previous Answer: \"The November 15th session covered several topics including education funding...\"\n        New Question: \"Were there any bills introduced that day?\"\n        Current Documents: [\"transcript 2023-11-15\"]\n        Decision: USE_CURRENT_CONTEXT\n        Reasoning: Asks about same session already loaded, just different aspect\n\n        Example 9:\n        Previous Question: \"What did Minister Jones say about healthcare?\"\n        Previous Answer: \"Minister Jones discussed hospital funding and staffing initiatives...\"\n        New Question: \"Did any opposition members respond to these points?\"\n        Current Documents: [\"transcript 2024-05-30\", \"transcript 2024-05-31\"]\n        Decision: USE_CURRENT_CONTEXT\n        Reasoning: Asks about responses to specific points in current transcripts\n\n        Example 10:\n        Previous Question: \"What does the current context contain?\"\n        Previous Answer: \"Currently loaded documents include Bill 118 and transcript from October 23...\"\n        New Question: \"Great, can you search other transcripts for mentions of Bill 118?\"\n        Current Documents: [\"bill 118\", \"transcript 2023-10-23\"]\n        Decision: LOAD_NEW_CONTEXT\n        Reasoning: Explicitly requests search beyond current documents\n\n        Example 11:\n        Previous Question: \"What\x27s in Bill 124?\"\n        Previous Answer: \"Bill 124 deals with healthcare worker compensation...\"\n        New Question: \"Show me what\x27s currently loaded\"\n        Current Documents: [\"bill 124\", \"transcript 2024-05-30\"]\n        Decision: USE_CURRENT_CONTEXT\n        Reasoning: Explicitly asks about current context contents\n\n        Example 12:\n        Previous Question: \"Did they discuss climate change in October?\"\n        Previous Answer: \"Yes, in the October 23rd session, MPPs debated environmental policies...\"\n        New Question: \"What was said about this in other months?\"\n        Current Documents: [\"transcript 2023-10-23\"]\n        Decision: LOAD_NEW_CONTEXT\n        Reasoning: \"Other months\" explicitly requests searching beyond current transcripts\n\n        RESPONSE FORMAT:\n        \x7b\n            \"decision\": \"USE_CURRENT_CONTEXT\" or \"LOAD_NEW_CONTEXT\",\n            \"reasoning\": \"<brief explanation focusing on relationship to previous Q&A exchange>\"\n        \x7d\n        Do NOT include any markdown formatting or backticks in the final answer. Just return a JSON that can be parsed.\n        "

def selP1 : String :=
  "\n        Given the following question about the Ontario Legislature, and using the document summaries provided in your context,\n        select the most relevant documents to help you answer the question.\n\n        QUESTION: \""
def selP2 : String :=
  "\"\n\n        The documents in your context are TRANSCRIPTS and BILLS from the current Ontario Legislative Assembly.\n        The transcript dates range from "
def selP3 : String :=
  " to "
def selP4 : String :=
  " and the bill numbers ranging from numbers "
def selP5 : String :=
  " to "
def selP6 : String :=
  "\n\n        CRITICAL PRIORITY: Always prefer answering general questions with more recent transcripts. For example: \"What has Doug Ford said about healthcare?\" should be answered preferring more recent information.\n\n        CRITICAL PRIORITY: If the question is explicitly asking for more information on a bill, or about a specific part of a bill, you should select that bill.\n\n        CRITICAL PRIORITY: If the question is around the DISCUSSION of a bill, you can prioritize transcripts over the bill itself.\n\n        Consider in order of priority:\n        1. Most recent documents (starting from "
def selP7 : String :=
  ")\n        1. Explicit date references in the question\n        2. Explicit bill references in the question\n        3. Speakers mentioned\n        4. Topics and their semantic similarities\n        5. Bill discussions\n\n        Transcripts have ids like \"transcript YYYY-MM-DD\"\n        Bills have ids like \"bill 123\"\n\n        Return ONLY the document ids, one on each line, without asterisks.\n        Limit your response to "
def selP8 : String :=
  " documents maximum.\n        Start with the highest priority document\n        "

/-- Model of the `conversation_history` string built (and then never used)
in `_check_context_relevance` (olabot.py lines 397-406). -/
def conversationHistoryStr (s : BotState) : String :=
  if s.chat_history = [] then ""
  else joinSep "\n"
    ((s.chat_history.drop 2).map
      (fun m => "Previous " ++ m.role ++ ": " ++ m.parts))

/-- Model of the relevance prompt f-string (olabot.py lines 408-558). -/
def relevance_prompt (s : BotState) (question : String) : String :=
  relevP1 ++ question ++ relevP2
    ++ joinSep ", " s.current_document_ids ++ relevP3

/-- Model of `_check_context_relevance` (olabot.py lines 389-568).  The
provider call `retrieval_model.generate_content` is the external
`oracle` (`none` = API failure), and `json.loads` inside `parse_llm_json`
is `loads` restricted to JSON objects with string values (`none` = parse
failure); a missing decision or reasoning key is a `KeyError`.  All
failures propagate to the caller, modeled by `none`. -/
def check_context_relevance (loads : String → Option (Dict String))
    (oracle : String → Option String) (s : BotState) (question : String) :
    Option Bool :=
  if s.current_document_ids = [] then some false
  else
    let _conversation_history := conversationHistoryStr s
    match oracle (relevance_prompt s question) with
    | none => none
    | some respText =>
      match parse_llm_json loads respText with
      | none => none
      | some dct =>
        match dct.lookup "decision" with
        | none => none
        | some decision =>
          match dct.lookup "reasoning" with
          | none => none
          | some _reasoning => some (decision == "USE_CURRENT_CONTEXT")

/-- Model of the selection prompt f-string (olabot.py lines 576-605);
`none` models the `IndexError` raised by `available_dates[0]` or
`available_bills[0]` when the respective list is empty. -/
def select_prompt (s : BotState) (question : String) : Option String := do
  let d0 ← s.available_dates.head?
  let dN ← s.available_dates.getLast?
  let b0 ← s.available_bills.head?
  let bN ← s.available_bills.getLast?
  some (selP1 ++ question ++ selP2 ++ d0 ++ selP3 ++ dN ++ selP4 ++ b0
    ++ selP5 ++ bN ++ selP6 ++ dN ++ selP7
    ++ toString s.MAX_DOCUMENT_CONTEXT ++ selP8)

/-- Model of `_select_relevant_documents` from the provider response on
(olabot.py lines 608-628): the provider call at line 608 supplies
`response_text`, over which the claims universally quantify.  Asterisks
are removed, the text is split on newlines, lines are filtered by
stripped membership in the document store (keeping the unstripped line),
the fallback `available_dates[-(MAX_DOCUMENT_CONTEXT + 1):]` applies if
nothing survives, and the result is clipped to `MAX_DOCUMENT_CONTEXT`. -/
def select_relevant_documents (s : BotState) (response_text : String) :
    List String :=
  let response_text := removeChar '*' response_text
  let relevant_documents := (pySplitNl response_text).filter
    (fun doc => (dictKeys s.documents).contains (pyStrip doc))
  let relevant_documents :=
    if relevant_documents = [] then
      s.available_dates.drop
        (s.available_dates.length - (s.MAX_DOCUMENT_CONTEXT + 1))
    else relevant_documents
  relevant_documents.take s.MAX_DOCUMENT_CONTEXT

/-- Lexicographic comparison of character lists by code point, the order
used by Python string comparison (and hence by `sorted`). -/
def charListLe : List Char → List Char → Bool
  | [], _ => true
  | _ :: _, [] => false
  | a :: as, b :: bs => if a = b then charListLe as bs else decide (a < b)

/-- Model of Python string `<=` (code-point lexicographic), the order used
by the `sorted(...)` calls at olabot.py lines 163 and 169. -/
def pyLe (a b : String) : Prop := charListLe a.data b.data = true

instance : DecidableRel pyLe :=
  fun a b => Bool.decEq (charListLe a.data b.data) true

/-- Per-document step of the list comprehensions collecting
`available_dates` and `available_bills` (olabot.py lines 160-169): the
`type` field is read first (`KeyError` if absent, outer `none`), and
`id_number` is read only for matching documents. -/
def typeIdNumber (t : String) (d : Doc) : Option (Option String) :=
  match d.lookup "type" with
  | none => none
  | some ty => if ty = t then (d.lookup "id_number").map some else some none

/-- The id_numbers of all documents of type `t`, in store order. -/
def typedIdNumbers (t : String) (documents : Dict Doc) :
    Option (List String) :=
  (optMapList (fun kv => typeIdNumber t kv.2) documents).map (·.filterMap id)

/-- Model of `OLABot.__init__` (olabot.py lines 129-206) after the two
JSON files are loaded: collects and sorts the transcript dates and bill
numbers, initializes the active bundle to the last three sorted dates
prefixed with "transcript ", renders their concatenated context, sets
`MAX_DOCUMENT_CONTEXT = 5`, and creates the initial chat session with no
previous history.  `none` models a `KeyError` during construction. -/
def OLABot_init (documents summaries : Dict Doc) : Option BotState := do
  let dates ← typedIdNumbers "transcript" documents
  let available_dates := List.insertionSort pyLe dates
  let bills ← typedIdNumbers "bill" documents
  let available_bills := List.insertionSort pyLe bills
  let current_document_ids :=
    (available_dates.drop (available_dates.length - 3)).map
      (fun d => "transcript " ++ d)
  let ctxPairs ← pyDictComp documents current_document_ids
  let s : BotState :=
    { MAX_DOCUMENT_CONTEXT := 5
      documents := documents
      summaries := summaries
      available_dates := available_dates
      available_bills := available_bills
      current_document_ids := current_document_ids
      current_context := documents_to_string ctxPairs
      chat_history := [] }
  some (initialize_chat_session s [])

/-- Removal of a key from a field dictionary, models `v.pop(key)` on the
remaining fields. -/
def dictErase (k : String) : Doc → Doc
  | [] => []
  | p :: t => if p.1 = k then dictErase k t else p :: dictErase k t

/-- In-place update of an existing key, keeping its position. -/
def dictSetIn (k val : String) : Doc → Doc
  | [] => []
  | p :: t => if p.1 = k then (k, val) :: dictSetIn k val t else p :: dictSetIn k val t

/-- Assignment `v[key] = val` on a field dictionary: updates in place if
the key exists, else appends. -/
def dictSet (k val : String) (v : Doc) : Doc :=
  if (v.lookup k).isSome then dictSetIn k val v else v ++ [(k, val)]

/-- Per-entry transformation of `summarize` (olascrape.py lines 221-235).
The summary generators `generate_transcript_summary` and
`generate_bill_summary` are passed in as parameters `genT`/`genB`
(their outputs depend on Python set iteration order, which is
unspecified; no claim constrains their values).  Evaluation order follows
Python: `v["id_number"]` first, then `v.pop("contents")`, then the
`v["summary"]` assignment; a missing key raises `KeyError` (`none`). -/
def summarizeEntry (genT genB : String → String → String)
    (k : String) (v : Doc) : Option Doc :=
  if containsSub "transcript" k then
    match v.lookup "id_number" with
    | none => none
    | some idn =>
      match v.lookup "contents" with
      | none => none
      | some cts => some (dictSet "summary" (genT idn cts) (dictErase "contents" v))
  else if containsSub "bill" k then
    match v.lookup "id_number" with
    | none => none
    | some idn =>
      match v.lookup "contents" with
      | none => none
      | some cts => some (dictSet "summary" (genB idn cts) (dictErase "contents" v))
  else some v

/-- Model of `summarize` (olascrape.py lines 221-235).  The
`copy.deepcopy` at line 222 makes the loop operate on a fresh copy, so
the whole operation is a pure function of the input dictionary; here that
purity is inherent to the embedding. -/
def summarize (genT genB : String → String → String) (docs : Dict Doc) :
    Option (Dict Doc) :=
  optMapList (fun kv => (summarizeEntry genT genB kv.1 kv.2).map (fun v => (kv.1, v))) docs

/-!
## Helper lemmas
-/

theorem lookup_isSome_mem {α : Type} {k : String} :
    ∀ {d : Dict α}, (d.lookup k).isSome → k ∈ dictKeys d
  | [], h => by simp [List.lookup] at h
  | (a, b) :: t, h => by
    simp only [List.lookup] at h
    cases hka : (k == a) with
    | true => simp [dictKeys, eq_of_beq hka]
    | false =>
      rw [hka] at h
      simp only [dictKeys, List.map_cons, List.mem_cons]
      exact Or.inr (lookup_isSome_mem h)

theorem mem_dedupFirstAux {x : String} :
    ∀ {l seen : List String}, x ∈ l → x ∉ seen → x ∈ dedupFirstAux seen l
  | [], _, hx, _ => by simp at hx
  | y :: ys, seen, hx, hs => by
    simp only [dedupFirstAux]
    by_cases hy : y ∈ seen
    · rw [if_pos hy]
      rcases List.mem_cons.mp hx with rfl | hx2
      · exact absurd hy hs
      · exact mem_dedupFirstAux hx2 hs
    · rw [if_neg hy]
      rcases List.mem_cons.mp hx with rfl | hx2
      · exact List.mem_cons_self _ _
      · by_cases hxy : x = y
        · subst hxy; exact List.mem_cons_self _ _
        · exact List.mem_cons_of_mem _
            (mem_dedupFirstAux hx2 (by simp [hxy, hs]))

theorem mem_dedupFirst {x : String} {l : List String} (hx : x ∈ l) :
    x ∈ dedupFirst l :=
  mem_dedupFirstAux hx (List.not_mem_nil x)

theorem dedupFirstAux_eq_self :
    ∀ {l seen : List String}, l.Nodup → (∀ x ∈ l, x ∉ seen) →
      dedupFirstAux seen l = l
  | [], _, _, _ => rfl
  | y :: ys, seen, hnd, hs => by
    simp only [dedupFirstAux, if_neg (hs y (List.mem_cons_self _ _))]
    have hnd2 := List.nodup_cons.mp hnd
    refine congrArg _ (dedupFirstAux_eq_self hnd2.2 ?_)
    intro x hx
    simp only [List.mem_cons, not_or]
    exact ⟨fun hxy => hnd2.1 (hxy ▸ hx), hs x (List.mem_cons_of_mem _ hx)⟩

theorem dedupFirst_eq_self {l : List String} (h : l.Nodup) : dedupFirst l = l :=
  dedupFirstAux_eq_self h (by simp)

theorem optMapList_isSome {α β : Type} {f : α → Option β} :
    ∀ {l : List α} {ps}, optMapList f l = some ps → ∀ x ∈ l, (f x).isSome
  | [], _, _, x, hx => by simp at hx
  | y :: ys, ps, h, x, hx => by
    simp only [optMapList] at h
    cases hfy : f y with
    | none => rw [hfy] at h; exact absurd h (by simp)
    | some v =>
      rw [hfy] at h
      cases hrec : optMapList f ys with
      | none => rw [hrec] at h; exact absurd h (by simp)
      | some vs =>
        rcases List.mem_cons.mp hx with rfl | hx2
        · simp [hfy]
        · exact optMapList_isSome hrec x hx2

theorem optMapList_lookup_fst {α : Type} {docs : Dict α} :
    ∀ {ids : List String} {ps},
      optMapList (fun k => (docs.lookup k).map (fun v => (k, v))) ids = some ps →
      ps.map Prod.fst = ids
  | [], ps, h => by simp only [optMapList] at h; simp [← Option.some.inj h]
  | y :: ys, ps, h => by
    simp only [optMapList] at h
    cases hfy : docs.lookup y with
    | none => rw [hfy] at h; exact absurd h (by simp)
    | some v =>
      rw [hfy] at h
      cases hrec : optMapList (fun k => (docs.lookup k).map (fun v => (k, v))) ys with
      | none => rw [hrec] at h; exact absurd h (by simp)
      | some vs =>
        rw [hrec] at h
        simp at h
        subst h
        simp [optMapList_lookup_fst hrec]

/-- The state carried by the result of `update_current_context`, whether
the call completed (`ok`) or raised mid-way (`error`). -/
def resultState : Except BotState BotState → BotState
  | .ok s => s
  | .error s => s

/-!
## Concrete fixtures
-/

/-- Sample transcript document. -/
def docJan : Doc :=
  [("type", "transcript"), ("id_number", "2024-01-01"), ("contents", "contents A")]

/-- Sample transcript document. -/
def docJun : Doc :=
  [("type", "transcript"), ("id_number", "2024-06-01"), ("contents", "contents B")]

/-- Sample document store with two transcripts. -/
def sampleDocs : Dict Doc :=
  [("transcript 2024-01-01", docJan), ("transcript 2024-06-01", docJun)]

/-- Sample bot state over `sampleDocs` with the default maximum of 5. -/
def sampleState : BotState :=
  { MAX_DOCUMENT_CONTEXT := 5
    documents := sampleDocs
    summaries := []
    available_dates := ["2024-01-01", "2024-06-01"]
    available_bills := []
    current_document_ids := ["transcript 2024-06-01"]
    current_context := ""
    chat_history := [] }

/-!
## Claims about `_select_relevant_documents`
-/

/-- Claim C1: the claim states that every identifier returned by
`_select_relevant_documents` is a key of the document store, on both the
filter path and the fallback path.  The code violates it on both paths,
evaluated here.  Fallback path: when no response line survives filtering,
the code returns raw entries of `available_dates` (line 617), which are
bare dates, not the "transcript {date}" keys of the store.  Filter path:
the membership test strips the line but the unstripped line is kept (line
611), so a response line with leading whitespace is returned although it
is not a key.  Either return value subsequently crashes
`_update_current_context` with a `KeyError` at line 364, so the claim is
the clear intent and the code a slip. -/
theorem C1_selector_returns_non_keys :
    (select_relevant_documents sampleState "no relevant documents found"
        = ["2024-01-01", "2024-06-01"]
      ∧ ∀ x ∈ ["2024-01-01", "2024-06-01"], x ∉ dictKeys sampleState.documents)
    ∧ (select_relevant_documents sampleState "  transcript 2024-06-01"
        = ["  transcript 2024-06-01"]
      ∧ "  transcript 2024-06-01" ∉ dictKeys sampleState.documents) := by
  refine ⟨⟨by decide, by decide⟩, by decide, by decide⟩

/-- Sample bot state identical to `sampleState` except that the maximum
document count is 1, matching the claimed scenario maxCount = 1. -/
def sampleStateMax1 : BotState :=
  { sampleState with MAX_DOCUMENT_CONTEXT := 1 }

/-- Claim C2: the claim states that the zero-valid-identifier fallback
returns exactly the maxCount most recent transcripts sorted descending by
date, and in particular `["transcript 2024-06-01"]` for the store with
transcripts dated 2024-01-01 and 2024-06-01 and maxCount 1.  Evaluating
the code at exactly that input: the fallback slices
`available_dates[-(maxCount+1):]` (both dates, ascending) and clips to
maxCount, producing `["2024-01-01"]` - the oldest date, as a bare date
string rather than a store key.  The debug message "using most recent
transcripts" (line 616) and the downstream key lookup at line 364 show
the claim is the intent and the code a slip. -/
theorem C2_fallback_returns_oldest_raw_date :
    select_relevant_documents sampleStateMax1 "What topics were discussed?"
      = ["2024-01-01"]
    ∧ ["2024-01-01"] ≠ ["transcript 2024-06-01"] := by
  refine ⟨by decide, by decide⟩

/-- Claim C7: on the filter path (some response line survives the
membership filter), the returned list is a sublist of the lines of the
asterisk-stripped provider response - hence preserves the provider's line
order - and its length is at most `MAX_DOCUMENT_CONTEXT`. -/
theorem C7_filter_path_order_and_clip (s : BotState) (resp : String)
    (h : (pySplitNl (removeChar '*' resp)).filter
      (fun doc => (dictKeys s.documents).contains (pyStrip doc)) ≠ []) :
    List.Sublist (select_relevant_documents s resp)
        (pySplitNl (removeChar '*' resp))
    ∧ (select_relevant_documents s resp).length ≤ s.MAX_DOCUMENT_CONTEXT := by
  simp only [select_relevant_documents]
  rw [if_neg h]
  constructor
  · exact (List.take_sublist _ _).trans (List.filter_sublist _)
  · simp [List.length_take]

/-- Witness for C7 at a concrete state and response. -/
theorem C7_witness :
    (pySplitNl (removeChar '*' "transcript 2024-06-01\nsome hallucination")).filter
      (fun doc => (dictKeys sampleState.documents).contains (pyStrip doc)) ≠ []
    ∧ List.Sublist
        (select_relevant_documents sampleState
          "transcript 2024-06-01\nsome hallucination")
        (pySplitNl (removeChar '*' "transcript 2024-06-01\nsome hallucination"))
    ∧ (select_relevant_documents sampleState
        "transcript 2024-06-01\nsome hallucination").length
      ≤ sampleState.MAX_DOCUMENT_CONTEXT := by
  refine ⟨by decide, (C7_filter_path_order_and_clip sampleState _ (by decide)).1,
    (C7_filter_path_order_and_clip sampleState _ (by decide)).2⟩

/-!
## Claims about the context manager
-/

/-- Claim C3 counterexample: the claim asserts the invariant (length bound
and store membership) after `_update_current_context` applied to any input
list.  Applied to a list containing an identifier absent from the store,
the Python code assigns `current_document_ids` at line 362 and then
raises `KeyError` at line 364, leaving a state whose identifier list
contains a non-key; the membership half of the invariant fails there. -/
theorem C3_counterexample :
    update_current_context sampleState ["transcript 2024-06-01", "bogus id"]
      = .error { sampleState with
          current_document_ids := ["transcript 2024-06-01", "bogus id"] }
    ∧ "bogus id" ∈ (resultState (update_current_context sampleState
        ["transcript 2024-06-01", "bogus id"])).current_document_ids
    ∧ "bogus id" ∉ dictKeys sampleState.documents := by
  refine ⟨rfl, by decide, by decide⟩

/-- Claim C3 (amended): after any `_update_current_context` call the
assigned identifier list has length at most `MAX_DOCUMENT_CONTEXT`
(regardless of the input list length, and even on the `KeyError` path);
and after every call that completes without an exception, every
identifier in the active bundle is a key of the document store. -/
theorem C3_invariant (s : BotState) (ids : List String) :
    (resultState (update_current_context s ids)).current_document_ids.length
      ≤ s.MAX_DOCUMENT_CONTEXT
    ∧ ∀ s2, update_current_context s ids = .ok s2 →
        ∀ i ∈ s2.current_document_ids, i ∈ dictKeys s.documents := by
  simp only [update_current_context]
  cases hctx : pyDictComp s.documents (ids.take s.MAX_DOCUMENT_CONTEXT) with
  | none =>
    refine ⟨?_, ?_⟩
    · simp [resultState, List.length_take]
    · intro s2 h
      exact absurd h (by simp)
  | some ctxPairs =>
    refine ⟨?_, ?_⟩
    · simp [resultState, initialize_chat_session, List.length_take]
    · intro s2 h i hi
      obtain rfl := Except.ok.inj h
      have hi2 : i ∈ List.take s.MAX_DOCUMENT_CONTEXT ids := hi
      have hsome := optMapList_isSome hctx i (mem_dedupFirst hi2)
      simp only [Option.isSome_map'] at hsome
      exact lookup_isSome_mem hsome

/-- Witness for C3 at a concrete state and a valid identifier list. -/
theorem C3_witness :
    (resultState (update_current_context sampleState
      ["transcript 2024-06-01"])).current_document_ids.length
      ≤ sampleState.MAX_DOCUMENT_CONTEXT
    ∧ "transcript 2024-06-01" ∈ dictKeys sampleState.documents := by
  refine ⟨(C3_invariant sampleState ["transcript 2024-06-01"]).1, ?_⟩
  exact (C3_invariant sampleState ["transcript 2024-06-01"]).2
    (resultState (update_current_context sampleState ["transcript 2024-06-01"]))
    rfl "transcript 2024-06-01" (by decide)

/-- Claim C5: for every state and every input identifier list, the
dialogue history accumulated before the refresh is preserved byte for
byte across `_update_current_context`: the turns after the fixed
two-entry system-prompt prefix in the resulting session equal the turns
after that prefix in the old session (on the `KeyError` path the session
is simply not rebuilt), and every completed call reinstalls exactly the
fixed prefix in front of them. -/
theorem C5_history_preserved (s : BotState) (ids : List String) :
    (resultState (update_current_context s ids)).chat_history.drop 2
      = s.chat_history.drop 2
    ∧ ∀ s2, update_current_context s ids = .ok s2 →
        s2.chat_history.take 2 = initialHistoryPrefix := by
  simp only [update_current_context]
  cases hctx : pyDictComp s.documents (ids.take s.MAX_DOCUMENT_CONTEXT) with
  | none =>
    refine ⟨rfl, ?_⟩
    intro s2 h
    exact absurd h (by simp)
  | some ctxPairs =>
    refine ⟨?_, ?_⟩
    · exact List.drop_left' rfl
    · intro s2 h
      obtain rfl := Except.ok.inj h
      exact List.take_left' rfl

/-- Bot state with two dialogue turns after the system-prompt prefix. -/
def histState : BotState :=
  { sampleState with
    chat_history := initialHistoryPrefix
      ++ [{ role := "user", parts := "Q1" }, { role := "model", parts := "A1" }] }

/-- Witness for C5 at a concrete state with non-trivial history. -/
theorem C5_witness :
    (resultState (update_current_context histState
      ["transcript 2024-06-01"])).chat_history.drop 2
      = histState.chat_history.drop 2
    ∧ (resultState (update_current_context histState
        ["transcript 2024-06-01"])).chat_history.take 2
      = initialHistoryPrefix := by
  have h := C5_history_preserved histState ["transcript 2024-06-01"]
  exact ⟨h.1, h.2 (resultState (update_current_context histState
    ["transcript 2024-06-01"])) rfl⟩

/-- Claim C6: with an empty active bundle, `_check_context_relevance`
returns `False` for every question, every behaviour of the external
provider, and every behaviour of the JSON parser: the guard at line 393
short-circuits before the provider is consulted. -/
theorem C6_empty_bundle_insufficient (loads : String → Option (Dict String))
    (oracle : String → Option String) (s : BotState) (question : String)
    (h : s.current_document_ids = []) :
    check_context_relevance loads oracle s question = some false := by
  simp only [check_context_relevance]
  rw [if_pos h]

/-- Bot state whose active bundle is empty. -/
def emptyBundleState : BotState :=
  { sampleState with current_document_ids := [] }

/-- Witness for C6 at a concrete state, question, and a provider and
parser that always fail (so any consultation would propagate an error). -/
theorem C6_witness :
    emptyBundleState.current_document_ids = []
    ∧ check_context_relevance (fun _ => none) (fun _ => none)
        emptyBundleState "What is Bill 124 about?" = some false :=
  ⟨rfl, C6_empty_bundle_insufficient _ _ _ _ rfl⟩

/-!
## Dictionary lemmas for `summarize`
-/

theorem lookup_cons {α : Type} (f a : String) (b : α) (t : Dict α) :
    List.lookup f ((a, b) :: t) = if f = a then some b else List.lookup f t := by
  by_cases h : f = a
  · rw [if_pos h]
    subst h
    simp [List.lookup]
  · rw [if_neg h]
    simp only [List.lookup]
    rw [show (f == a) = false from beq_false_of_ne h]

theorem lookup_dictErase_self (k : String) (v : Doc) :
    (dictErase k v).lookup k = none := by
  induction v with
  | nil => rfl
  | cons p t ih =>
    obtain ⟨a, b⟩ := p
    simp only [dictErase]
    by_cases hak : a = k
    · rw [if_pos hak]; exact ih
    · rw [if_neg hak, lookup_cons, if_neg (Ne.symm hak)]; exact ih

theorem lookup_dictErase_ne {f k : String} (h : f ≠ k) (v : Doc) :
    (dictErase k v).lookup f = v.lookup f := by
  induction v with
  | nil => rfl
  | cons p t ih =>
    obtain ⟨a, b⟩ := p
    simp only [dictErase]
    by_cases hak : a = k
    · rw [if_pos hak, lookup_cons, if_neg (fun hfa => h (hfa.trans hak))]
      exact ih
    · rw [if_neg hak, lookup_cons, lookup_cons]
      by_cases hfa : f = a
      · rw [if_pos hfa, if_pos hfa]
      · rw [if_neg hfa, if_neg hfa]; exact ih

theorem lookup_append_of_none {α : Type} {v : Dict α} {f : String}
    (h : v.lookup f = none) (w : Dict α) :
    (v ++ w).lookup f = w.lookup f := by
  induction v with
  | nil => rfl
  | cons p t ih =>
    obtain ⟨a, b⟩ := p
    rw [List.cons_append, lookup_cons]
    rw [lookup_cons] at h
    by_cases hfa : f = a
    · rw [if_pos hfa] at h; exact absurd h (by simp)
    · rw [if_neg hfa] at h ⊢; exact ih h

theorem lookup_dictSetIn_self {k : String} (val : String) {v : Doc}
    (hsome : (v.lookup k).isSome) :
    (dictSetIn k val v).lookup k = some val := by
  induction v with
  | nil => simp [List.lookup] at hsome
  | cons p t ih =>
    obtain ⟨a, b⟩ := p
    rw [lookup_cons] at hsome
    simp only [dictSetIn]
    by_cases hak : a = k
    · rw [if_pos hak, lookup_cons, if_pos rfl]
    · rw [if_neg hak, lookup_cons, if_neg (Ne.symm hak)]
      rw [if_neg (Ne.symm hak)] at hsome
      exact ih hsome

theorem lookup_dictSetIn_ne {f k : String} (h : f ≠ k) (val : String) (v : Doc) :
    (dictSetIn k val v).lookup f = v.lookup f := by
  induction v with
  | nil => rfl
  | cons p t ih =>
    obtain ⟨a, b⟩ := p
    simp only [dictSetIn]
    by_cases hak : a = k
    · rw [if_pos hak, lookup_cons, lookup_cons, if_neg h,
        if_neg (fun hfa => h (hfa.trans hak))]
      exact ih
    · rw [if_neg hak, lookup_cons, lookup_cons]
      by_cases hfa : f = a
      · rw [if_pos hfa, if_pos hfa]
      · rw [if_neg hfa, if_neg hfa]; exact ih

theorem lookup_dictSet_self (k val : String) (v : Doc) :
    (dictSet k val v).lookup k = some val := by
  unfold dictSet
  by_cases hsome : (v.lookup k).isSome
  · rw [if_pos hsome]
    exact lookup_dictSetIn_self val hsome
  · rw [if_neg hsome]
    rw [lookup_append_of_none (Option.not_isSome_iff_eq_none.mp hsome)]
    rw [lookup_cons, if_pos rfl]

theorem lookup_dictSet_ne {f k : String} (h : f ≠ k) (val : String) (v : Doc) :
    (dictSet k val v).lookup f = v.lookup f := by
  unfold dictSet
  by_cases hsome : (v.lookup k).isSome
  · rw [if_pos hsome]
    exact lookup_dictSetIn_ne h val v
  · rw [if_neg hsome]
    cases hvf : v.lookup f with
    | some b =>
      clear hsome
      induction v with
      | nil => simp [List.lookup] at hvf
      | cons p t ih =>
        obtain ⟨a, b2⟩ := p
        rw [List.cons_append, lookup_cons]
        rw [lookup_cons] at hvf
        by_cases hfa : f = a
        · rw [if_pos hfa] at hvf ⊢; exact hvf
        · rw [if_neg hfa] at hvf ⊢; exact ih hvf
    | none =>
      rw [lookup_append_of_none hvf, lookup_cons, if_neg h]
      rfl

/-- Field-level relation between an input entry and its summarized entry:
the contents field is gone, the summary field holds the generated summary
of the old id_number and contents, and every other field is unchanged. -/
def summarizedFields (gen : String → String → String)
    (kv kv2 : String × Doc) : Prop :=
  kv2.2.lookup "contents" = none
  ∧ (∃ idn cts, kv.2.lookup "id_number" = some idn
      ∧ kv.2.lookup "contents" = some cts
      ∧ kv2.2.lookup "summary" = some (gen idn cts))
  ∧ ∀ f, f ≠ "contents" → f ≠ "summary" → kv2.2.lookup f = kv.2.lookup f

theorem summarizedFields_of (gen : String → String → String)
    (kv : String × Doc) {idn cts : String}
    (hid : kv.2.lookup "id_number" = some idn)
    (hcts : kv.2.lookup "contents" = some cts) :
    summarizedFields gen kv
      (kv.1, dictSet "summary" (gen idn cts) (dictErase "contents" kv.2)) := by
  refine ⟨?_, ⟨idn, cts, hid, hcts, ?_⟩, ?_⟩
  · exact (lookup_dictSet_ne (by decide) _ _).trans (lookup_dictErase_self _ _)
  · exact lookup_dictSet_self _ _ _
  · intro f hf1 hf2
    exact (lookup_dictSet_ne hf2 _ _).trans (lookup_dictErase_ne hf1 _)

/-- Relation between one input entry of `summarize` and the corresponding
output entry: keys agree; an entry whose key contains "transcript" (or
else "bill") has its contents field removed, a summary field generated by
the respective generator, and every other field unchanged; any other
entry is unchanged entirely. -/
def summarizeRel (genT genB : String → String → String)
    (kv kv2 : String × Doc) : Prop :=
  kv2.1 = kv.1
  ∧ (if containsSub "transcript" kv.1 then summarizedFields genT kv kv2
     else if containsSub "bill" kv.1 then summarizedFields genB kv kv2
     else kv2.2 = kv.2)

/-- Claim C8: whenever `summarize` completes, its output dictionary is
related entrywise to the input by `summarizeRel`: same keys in the same
order, contents removed and summary added on every transcript or bill
entry, all other fields (and all other entries) unchanged.  The input
dictionary itself is untouched: the code deep-copies it at line 222, so
the operation is a pure function of the input, which is inherent in this
embedding. -/
theorem C8_summarize (genT genB : String → String → String) :
    ∀ (docs res : Dict Doc), summarize genT genB docs = some res →
      List.Forall₂ (summarizeRel genT genB) docs res := by
  intro docs
  induction docs with
  | nil =>
    intro res h
    simp only [summarize, optMapList] at h
    obtain rfl := Option.some.inj h
    exact List.Forall₂.nil
  | cons kv tl ih =>
    intro res h
    simp only [summarize, optMapList] at h
    cases he : summarizeEntry genT genB kv.1 kv.2 with
    | none => rw [he] at h; simp at h
    | some v2 =>
      rw [he] at h
      simp only [Option.map_some'] at h
      cases hrec : optMapList
          (fun kv => (summarizeEntry genT genB kv.1 kv.2).map
            (fun v => (kv.1, v))) tl with
      | none => rw [hrec] at h; simp at h
      | some vs =>
        rw [hrec] at h
        simp only [Option.map_some', Option.some.injEq] at h
        obtain rfl := h.symm
        refine List.Forall₂.cons ?_ (ih vs hrec)
        refine ⟨rfl, ?_⟩
        simp only [summarizeEntry] at he
        by_cases ht : containsSub "transcript" kv.1
        · rw [if_pos ht]
          rw [if_pos ht] at he
          cases hid : kv.2.lookup "id_number" with
          | none => rw [hid] at he; exact absurd he (by simp)
          | some idn =>
            rw [hid] at he
            cases hcts : kv.2.lookup "contents" with
            | none => rw [hcts] at he; exact absurd he (by simp)
            | some cts =>
              rw [hcts] at he
              obtain rfl := Option.some.inj he
              exact summarizedFields_of genT kv hid hcts
        · rw [if_neg ht]
          rw [if_neg ht] at he
          by_cases hb : containsSub "bill" kv.1
          · rw [if_pos hb]
            rw [if_pos hb] at he
            cases hid : kv.2.lookup "id_number" with
            | none => rw [hid] at he; exact absurd he (by simp)
            | some idn =>
              rw [hid] at he
              cases hcts : kv.2.lookup "contents" with
              | none => rw [hcts] at he; exact absurd he (by simp)
              | some cts =>
                rw [hcts] at he
                obtain rfl := Option.some.inj he
                exact summarizedFields_of genB kv hid hcts
          · rw [if_neg hb]
            rw [if_neg hb] at he
            exact (Option.some.inj he).symm

/-- Witness for C8 at a concrete store and concrete generators. -/
theorem C8_witness :
    ∃ res, summarize (fun a b => a ++ "|" ++ b) (fun a b => b ++ a) sampleDocs
        = some res
      ∧ List.Forall₂ (summarizeRel (fun a b => a ++ "|" ++ b)
          (fun a b => b ++ a)) sampleDocs res :=
  ⟨_, rfl, C8_summarize _ _ sampleDocs _ rfl⟩

/-!
## Strip lemmas for `parse_llm_json`
-/

theorem stripList_cons_space {c : Char} (hc : isPySpace c = true)
    (l : List Char) : stripList (c :: l) = stripList l := by
  simp [stripList, List.dropWhile_cons, hc]

theorem rstripList_concat_pos {c : Char} (hc : isPySpace c = true)
    (l : List Char) : rstripList (l ++ [c]) = rstripList l := by
  simp [rstripList, List.reverse_append, List.dropWhile_cons, hc]

theorem rstripList_concat_neg {c : Char} (hc : isPySpace c = false)
    (l : List Char) : rstripList (l ++ [c]) = l ++ [c] := by
  simp [rstripList, List.reverse_append, List.dropWhile_cons, hc]

theorem stripList_concat_space {c : Char} (hc : isPySpace c = true)
    (l : List Char) : stripList (l ++ [c]) = stripList l := by
  unfold stripList
  rw [List.dropWhile_append]
  by_cases hd : (l.dropWhile isPySpace).isEmpty
  · rw [if_pos hd]
    rw [List.isEmpty_eq_true.mp hd]
    simp [List.dropWhile_cons, hc, rstripList]
  · rw [if_neg hd]
    exact rstripList_concat_pos hc _

theorem stripList_of_ends {a b : Char} (ha : isPySpace a = false)
    (hb : isPySpace b = false) (l : List Char) :
    stripList (a :: (l ++ [b])) = a :: (l ++ [b]) := by
  unfold stripList
  rw [List.dropWhile_cons]
  simp only [ha, Bool.false_eq_true, if_false]
  exact rstripList_concat_neg hb (a :: l)

theorem clean_fence_json (m : List Char) :
    cleanLLMResponse
      ⟨'\x60' :: '\x60' :: '\x60' :: 'j' :: 's' :: 'o' :: 'n' :: '\n'
        :: (m ++ ['\n', '\x60', '\x60', '\x60'])⟩
      = pyStrip ⟨m⟩ := by
  have hF : stripList
      ('\x60' :: '\x60' :: '\x60' :: 'j' :: 's' :: 'o' :: 'n' :: '\n'
        :: (m ++ ['\n', '\x60', '\x60', '\x60']))
      = '\x60' :: '\x60' :: '\x60' :: 'j' :: 's' :: 'o' :: 'n' :: '\n'
        :: (m ++ ['\n', '\x60', '\x60', '\x60']) := by
    have h0 := stripList_of_ends (a := '\x60') (b := '\x60')
      (by decide) (by decide)
      ('\x60' :: '\x60' :: 'j' :: 's' :: 'o' :: 'n' :: '\n'
        :: (m ++ ['\n', '\x60', '\x60']))
    simpa [List.append_assoc] using h0
  have hend : List.isSuffixOf ['\x60', '\x60', '\x60']
      ('\n' :: (m ++ ['\n', '\x60', '\x60', '\x60'])) = true := by
    unfold List.isSuffixOf
    simp [List.reverse_cons, List.reverse_append, List.isPrefixOf]
  have htake : ('\n' :: (m ++ ['\n', '\x60', '\x60', '\x60'])).take
      (('\n' :: (m ++ ['\n', '\x60', '\x60', '\x60'])).length - 3)
      = '\n' :: (m ++ ['\n']) := by
    have hshape : '\n' :: (m ++ ['\n', '\x60', '\x60', '\x60'])
        = ('\n' :: (m ++ ['\n'])) ++ ['\x60', '\x60', '\x60'] := by
      simp
    rw [hshape]
    apply List.take_left'
    simp
  have hlast : stripList ('\n' :: (m ++ ['\n'])) = stripList m := by
    rw [stripList_cons_space (by decide), stripList_concat_space (by decide)]
  simp only [cleanLLMResponse, pyStrip, pyStartswith, pyEndswith, strDrop,
    strDropRight, hF]
  show String.mk (stripList
      (if List.isSuffixOf ['\x60', '\x60', '\x60']
          ('\n' :: (m ++ ['\n', '\x60', '\x60', '\x60'])) = true
        then String.mk (('\n' :: (m ++ ['\n', '\x60', '\x60', '\x60'])).take
          (('\n' :: (m ++ ['\n', '\x60', '\x60', '\x60'])).length - 3))
        else String.mk
          ('\n' :: (m ++ ['\n', '\x60', '\x60', '\x60']))).data)
    = String.mk (stripList m)
  rw [if_pos hend]
  show String.mk (stripList
      (('\n' :: (m ++ ['\n', '\x60', '\x60', '\x60'])).take
        (('\n' :: (m ++ ['\n', '\x60', '\x60', '\x60'])).length - 3)))
    = String.mk (stripList m)
  rw [htake, hlast]

theorem clean_fence_plain (m : List Char) :
    cleanLLMResponse
      ⟨'\x60' :: '\x60' :: '\x60' :: '\n'
        :: (m ++ ['\n', '\x60', '\x60', '\x60'])⟩
      = pyStrip ⟨m⟩ := by
  have hF : stripList
      ('\x60' :: '\x60' :: '\x60' :: '\n'
        :: (m ++ ['\n', '\x60', '\x60', '\x60']))
      = '\x60' :: '\x60' :: '\x60' :: '\n'
        :: (m ++ ['\n', '\x60', '\x60', '\x60']) := by
    have h0 := stripList_of_ends (a := '\x60') (b := '\x60')
      (by decide) (by decide)
      ('\x60' :: '\x60' :: '\n' :: (m ++ ['\n', '\x60', '\x60']))
    simpa [List.append_assoc] using h0
  have hend : List.isSuffixOf ['\x60', '\x60', '\x60']
      ('\n' :: (m ++ ['\n', '\x60', '\x60', '\x60'])) = true := by
    unfold List.isSuffixOf
    simp [List.reverse_cons, List.reverse_append, List.isPrefixOf]
  have htake : ('\n' :: (m ++ ['\n', '\x60', '\x60', '\x60'])).take
      (('\n' :: (m ++ ['\n', '\x60', '\x60', '\x60'])).length - 3)
      = '\n' :: (m ++ ['\n']) := by
    have hshape : '\n' :: (m ++ ['\n', '\x60', '\x60', '\x60'])
        = ('\n' :: (m ++ ['\n'])) ++ ['\x60', '\x60', '\x60'] := by
      simp
    rw [hshape]
    apply List.take_left'
    simp
  have hlast : stripList ('\n' :: (m ++ ['\n'])) = stripList m := by
    rw [stripList_cons_space (by decide), stripList_concat_space (by decide)]
  simp only [cleanLLMResponse, pyStrip, pyStartswith, pyEndswith, strDrop,
    strDropRight, hF]
  show String.mk (stripList
      (if List.isSuffixOf ['\x60', '\x60', '\x60']
          ('\n' :: (m ++ ['\n', '\x60', '\x60', '\x60'])) = true
        then String.mk (('\n' :: (m ++ ['\n', '\x60', '\x60', '\x60'])).take
          (('\n' :: (m ++ ['\n', '\x60', '\x60', '\x60'])).length - 3))
        else String.mk
          ('\n' :: (m ++ ['\n', '\x60', '\x60', '\x60']))).data)
    = String.mk (stripList m)
  rw [if_pos hend]
  show String.mk (stripList
      (('\n' :: (m ++ ['\n', '\x60', '\x60', '\x60'])).take
        (('\n' :: (m ++ ['\n', '\x60', '\x60', '\x60'])).length - 3)))
    = String.mk (stripList m)
  rw [htake, hlast]

/-- Claim C10: for every string accepted by the JSON parser, the parser
result is unchanged by `parse_llm_json`, and wrapping the string in a
markdown code fence (with or without the `json` language tag) is stripped
before parsing.  `json.loads` is external, so it enters as a parameter
together with the two facts of it the claim rests on, dischargeable at
any concrete instance: `json.loads` ignores surrounding whitespace
(`htrim`), and no string it accepts starts with a backtick fence after
stripping (`hfence`, since no JSON value starts with a backtick);
`hsucc` is the premise that parsing `s` succeeds. -/
theorem C10_parse_llm_json {α : Type} (loads : String → Option α) (s : String)
    (htrim : loads (pyStrip s) = loads s)
    (hfence : pyStartswith (pyStrip s) "```" = false)
    (_hsucc : (loads s).isSome) :
    parse_llm_json loads s = loads s
    ∧ parse_llm_json loads ("```json\n" ++ s ++ "\n```") = loads s
    ∧ parse_llm_json loads ("```\n" ++ s ++ "\n```") = loads s := by
  have hjson : ("```json\n" ++ s ++ "\n```")
      = String.mk ('\x60' :: '\x60' :: '\x60' :: 'j' :: 's' :: 'o' :: 'n'
        :: '\n' :: (s.data ++ ['\n', '\x60', '\x60', '\x60'])) := by
    apply String.ext
    rw [String.data_append, String.data_append]
    show (['\x60', '\x60', '\x60', 'j', 's', 'o', 'n', '\n'] ++ s.data)
      ++ ['\n', '\x60', '\x60', '\x60'] = _
    simp
  have hplain : ("```\n" ++ s ++ "\n```")
      = String.mk ('\x60' :: '\x60' :: '\x60'
        :: '\n' :: (s.data ++ ['\n', '\x60', '\x60', '\x60'])) := by
    apply String.ext
    rw [String.data_append, String.data_append]
    show (['\x60', '\x60', '\x60', '\n'] ++ s.data)
      ++ ['\n', '\x60', '\x60', '\x60'] = _
    simp
  have hclean : cleanLLMResponse s = pyStrip s := by
    unfold cleanLLMResponse
    rw [if_neg (by simp [hfence])]
  refine ⟨?_, ?_, ?_⟩
  · show loads (cleanLLMResponse s) = loads s
    rw [hclean, htrim]
  · show loads (cleanLLMResponse ("```json\n" ++ s ++ "\n```")) = loads s
    rw [hjson, clean_fence_json s.data]
    exact htrim
  · show loads (cleanLLMResponse ("```\n" ++ s ++ "\n```")) = loads s
    rw [hplain, clean_fence_plain s.data]
    exact htrim

/-- Concrete model of a JSON parser accepting (up to surrounding
whitespace) exactly the document `7`. -/
def loadsSeven : String → Option Nat :=
  fun t => if (pyStrip t).data = ['7'] then some 7 else none

/-- Witness for C10 at the concrete parser `loadsSeven` and input "7". -/
theorem C10_witness :
    loadsSeven (pyStrip "7") = loadsSeven "7"
    ∧ pyStartswith (pyStrip "7") "```" = false
    ∧ (loadsSeven "7").isSome
    ∧ parse_llm_json loadsSeven "7" = loadsSeven "7"
    ∧ parse_llm_json loadsSeven ("```json\n" ++ "7" ++ "\n```") = loadsSeven "7"
    ∧ parse_llm_json loadsSeven ("```\n" ++ "7" ++ "\n```") = loadsSeven "7" := by
  have h := C10_parse_llm_json loadsSeven "7" (by decide) (by decide) (by decide)
  exact ⟨by decide, by decide, by decide, h.1, h.2.1, h.2.2⟩

theorem charListLe_total : ∀ (a b : List Char),
    charListLe a b = true ∨ charListLe b a = true
  | [], _ => Or.inl rfl
  | _ :: _, [] => Or.inr rfl
  | a :: as, b :: bs => by
    simp only [charListLe]
    by_cases hab : a = b
    · subst hab
      rw [if_pos rfl, if_pos rfl]
      exact charListLe_total as bs
    · rw [if_neg hab, if_neg (Ne.symm hab)]
      rcases lt_trichotomy a b with h | h | h
      · exact Or.inl (by simp [h])
      · exact absurd h hab
      · exact Or.inr (by simp [h])

theorem charListLe_trans : ∀ {a b c : List Char},
    charListLe a b = true → charListLe b c = true → charListLe a c = true
  | [], _, _, _, _ => rfl
  | _ :: _, [], _, hab, _ => by simp [charListLe] at hab
  | _ :: _, _ :: _, [], _, hbc => by simp [charListLe] at hbc
  | x :: xs, y :: ys, z :: zs, hab, hbc => by
    simp only [charListLe] at hab hbc ⊢
    by_cases hxy : x = y
    · subst hxy
      rw [if_pos rfl] at hab
      by_cases hyz : x = z
      · subst hyz
        rw [if_pos rfl] at hbc ⊢
        exact charListLe_trans hab hbc
      · rw [if_neg hyz] at hbc ⊢
        exact hbc
    · rw [if_neg hxy] at hab
      have hx_lt_y : x < y := by simpa using hab
      by_cases hyz : y = z
      · subst hyz
        rw [if_neg hxy]
        exact hab
      · rw [if_neg hyz] at hbc
        have hy_lt_z : y < z := by simpa using hbc
        have hxz : x < z := lt_trans hx_lt_y hy_lt_z
        rw [if_neg (ne_of_lt hxz)]
        simp [hxz]

/-- Claim C9: at construction time, before any question, the active
bundle is exactly the three most recent transcripts by date - identifiers
of the form "transcript {date}", in ascending date order (`pyLe` is the
code-point order Python `sorted` uses), every selected date belonging to
the store and strictly later (later-or-equal and different) than every
non-selected date - even though `MAX_DOCUMENT_CONTEXT` is 5; and the
context string is `documents_to_string` of exactly those three documents
in that order.  The hypotheses require at least three transcripts with
pairwise distinct dates, so that "the three most recent" is well
defined. -/
theorem C9_init_three_most_recent (documents summaries : Dict Doc)
    (st : BotState) (dates : List String)
    (hinit : OLABot_init documents summaries = some st)
    (hdates : typedIdNumbers "transcript" documents = some dates)
    (hnodup : dates.Nodup) (hlen : 3 ≤ dates.length) :
    st.MAX_DOCUMENT_CONTEXT = 5
    ∧ ∃ sel : List String,
        st.current_document_ids = sel.map (fun d => "transcript " ++ d)
        ∧ sel.length = 3
        ∧ List.Sorted pyLe sel
        ∧ (∀ d ∈ sel, d ∈ dates)
        ∧ (∀ d ∈ dates, d ∉ sel → ∀ e ∈ sel, pyLe d e ∧ d ≠ e)
        ∧ ∃ ctxPairs,
            pyDictComp documents st.current_document_ids = some ctxPairs
            ∧ st.current_context = documents_to_string ctxPairs
            ∧ ctxPairs.map Prod.fst = st.current_document_ids := by
  haveI hTot : IsTotal String pyLe :=
    ⟨fun a b => charListLe_total a.data b.data⟩
  haveI hTrans : IsTrans String pyLe :=
    ⟨fun _ _ _ hab hbc => charListLe_trans hab hbc⟩
  unfold OLABot_init at hinit
  rw [hdates] at hinit
  simp only [Option.bind_eq_bind, Option.some_bind] at hinit
  cases hbills : typedIdNumbers "bill" documents with
  | none => rw [hbills] at hinit; exact absurd hinit (by simp)
  | some bills =>
    rw [hbills] at hinit
    simp only [Option.bind_eq_bind, Option.some_bind] at hinit
    set A := List.insertionSort pyLe dates with hA
    set sel := A.drop (A.length - 3) with hsel
    cases hctx : pyDictComp documents
        (sel.map (fun d => "transcript " ++ d)) with
    | none => rw [hctx] at hinit; exact absurd hinit (by simp)
    | some ctxPairs =>
      rw [hctx] at hinit
      simp only [Option.bind_eq_bind, Option.some_bind,
        Option.some.injEq] at hinit
      obtain rfl := hinit.symm
      have perm : A.Perm dates := List.perm_insertionSort _ dates
      have hsorted : List.Sorted pyLe A := List.sorted_insertionSort pyLe dates
      have hAnodup : A.Nodup := perm.symm.nodup hnodup
      have hAlen : A.length = dates.length := perm.length_eq
      have hselNodup : sel.Nodup :=
        (List.drop_sublist _ _).nodup hAnodup
      refine ⟨rfl, sel, rfl, ?_, ?_, ?_, ?_, ctxPairs, hctx, rfl, ?_⟩
      · rw [hsel, List.length_drop]
        omega
      · exact List.Pairwise.sublist (List.drop_sublist _ _) hsorted
      · intro d hd
        exact perm.mem_iff.mp (List.drop_subset _ _ hd)
      · intro d hd hdnot e he
        have hdA : d ∈ A := perm.mem_iff.mpr hd
        have hsplit := List.take_append_drop (A.length - 3) A
        have hp : List.Pairwise pyLe
            (A.take (A.length - 3) ++ A.drop (A.length - 3)) := by
          rw [hsplit]; exact hsorted
        have hnd : List.Pairwise (· ≠ ·)
            (A.take (A.length - 3) ++ A.drop (A.length - 3)) := by
          rw [hsplit]; exact hAnodup
        have hdtake : d ∈ A.take (A.length - 3) := by
          rcases List.mem_append.mp (by rw [hsplit]; exact hdA) with h1 | h2
          · exact h1
          · exact absurd h2 hdnot
        obtain ⟨-, -, hcross⟩ := List.pairwise_append.mp hp
        obtain ⟨-, -, hdisj⟩ := List.pairwise_append.mp hnd
        exact ⟨hcross d hdtake e he, hdisj d hdtake e he⟩
      · have hfst := optMapList_lookup_fst hctx
        rw [hfst]
        apply dedupFirst_eq_self
        refine List.Nodup.map ?_ hselNodup
        intro a b hab
        have hdata := congrArg String.data hab
        simp only [String.data_append, List.append_cancel_left_eq] at hdata
        exact String.ext hdata

/-- Concrete store with three transcripts (deliberately out of date order)
and one bill. -/
def docs9 : Dict Doc :=
  [("transcript 2024-06-01",
     [("type", "transcript"), ("id_number", "2024-06-01"), ("contents", "C")]),
   ("transcript 2024-01-01",
     [("type", "transcript"), ("id_number", "2024-01-01"), ("contents", "A")]),
   ("transcript 2024-03-01",
     [("type", "transcript"), ("id_number", "2024-03-01"), ("contents", "B")]),
   ("bill 1",
     [("type", "bill"), ("id_number", "1"), ("contents", "B1")])]

/-- Witness for C9 at the concrete store `docs9`. -/
theorem C9_witness :
    ∃ st dates, OLABot_init docs9 [] = some st
      ∧ typedIdNumbers "transcript" docs9 = some dates
      ∧ dates.Nodup ∧ 3 ≤ dates.length
      ∧ st.MAX_DOCUMENT_CONTEXT = 5
      ∧ ∃ sel : List String,
          st.current_document_ids = sel.map (fun d => "transcript " ++ d)
          ∧ sel.length = 3
          ∧ List.Sorted pyLe sel
          ∧ (∀ d ∈ sel, d ∈ dates)
          ∧ (∀ d ∈ dates, d ∉ sel → ∀ e ∈ sel, pyLe d e ∧ d ≠ e)
          ∧ ∃ ctxPairs,
              pyDictComp docs9 st.current_document_ids = some ctxPairs
              ∧ st.current_context = documents_to_string ctxPairs
              ∧ ctxPairs.map Prod.fst = st.current_document_ids := by
  have hIsSome : (OLABot_init docs9 []).isSome := by decide
  obtain ⟨st, hst⟩ := Option.isSome_iff_exists.mp hIsSome
  obtain ⟨h1, h2⟩ := C9_init_three_most_recent docs9 [] st
    ["2024-06-01", "2024-01-01", "2024-03-01"] hst (by decide)
    (by decide) (by decide)
  exact ⟨st, _, hst, by decide, by decide, by decide, h1, h2⟩
